import Mathlib

/-!
Verification development for the group-chat enforcement bot of this
repository (files `utils.py`, `warning_handler.py`, `main.py`, `delete.py`).

The Python code is shallowly embedded: the SQLite tables become fields of a
`Db` record, module-level mutable dictionaries become explicit function
states, and each handler becomes a pure state-transformer.  Python strings
are modelled as lists of codepoints (`PyStr`), exactly the view both the
codepoint-range test of `utils.py` and the regex character class
`[؀-ۿ]` of the other three files operate on.
-/

namespace Mdawd7

/-- A Python string viewed as its sequence of codepoints. -/
abbrev PyStr := List Char

/- ------------------------------------------------------------------
   The four `is_arabic` implementations.
   ------------------------------------------------------------------ -/

/-- is_arabic from `utils.py`: `any(ord(char) in range(0x0600, 0x06FF + 1) for char in text)`.
Python `x in range(a, b)` means `a ≤ x < b`. -/
def utils_is_arabic (text : PyStr) : Bool :=
  text.any (fun c => decide (0x0600 ≤ c.toNat ∧ c.toNat < 0x06FF + 1))

/-- is_arabic from `warning_handler.py`: `bool(re.search(r'[؀-ۿ]', text))` —
the regex search succeeds iff some codepoint of `text` lies in the inclusive
class U+0600..U+06FF. -/
def wh_is_arabic (text : PyStr) : Bool :=
  text.any (fun c => decide (0x0600 ≤ c.toNat ∧ c.toNat ≤ 0x06FF))

/-- is_arabic from `main.py`: `bool(re.search(r'[؀-ۿ]', text))`. -/
def main_is_arabic (text : PyStr) : Bool :=
  text.any (fun c => decide (0x0600 ≤ c.toNat ∧ c.toNat ≤ 0x06FF))

/-- is_arabic from `delete.py`: `bool(re.search(r'[؀-ۿ]', text))`. -/
def delete_is_arabic (text : PyStr) : Bool :=
  text.any (fun c => decide (0x0600 ≤ c.toNat ∧ c.toNat ≤ 0x06FF))

/- ------------------------------------------------------------------
   Database state (tables of `warnings.db`).
   ------------------------------------------------------------------ -/

/-- One row of the `warnings_history` table (`log_warning` never varies the
timestamp-relevant behaviour, so the wall-clock column is elided). -/
structure HistEntry where
  user_id : Int
  warning_number : Nat
  group_id : Int
  deriving DecidableEq, Repr

/-- The SQLite database plus the bot's persistent tables.
`warnings` maps a user id to its `warnings` column when a row exists
(`user_id` is the primary key); `users` keeps only the set of cached user
ids because the name columns never influence control flow;
`permissions` maps a user id to its `role` column when a row exists. -/
structure Db where
  warnings : Int → Option Nat
  warnings_history : List HistEntry
  bypass_users : List Int
  groups : List Int
  users : List Int
  removed_users : List (Int × Int)
  permissions : Int → Option String

/-- get_user_warnings from `warning_handler.py`: `row[0] if row else 0`. -/
def get_user_warnings (db : Db) (user_id : Int) : Nat :=
  match db.warnings user_id with
  | some w => w
  | none => 0

/-- update_warnings from `warning_handler.py`:
`INSERT ... ON CONFLICT(user_id) DO UPDATE SET warnings=excluded.warnings`,
an upsert of the user's row. -/
def update_warnings (db : Db) (user_id : Int) (w : Nat) : Db :=
  { db with warnings := fun v => if v = user_id then some w else db.warnings v }

/-- log_warning from `warning_handler.py`: inserts one row into
`warnings_history`. -/
def log_warning (db : Db) (user_id : Int) (warning_number : Nat) (group_id : Int) : Db :=
  { db with warnings_history :=
      db.warnings_history ++ [⟨user_id, warning_number, group_id⟩] }

/-- update_user_info from `warning_handler.py`: upsert into the `users`
table; only the presence of the id matters to the model. -/
def update_user_info (db : Db) (user_id : Int) : Db :=
  { db with users := if user_id ∈ db.users then db.users else db.users ++ [user_id] }

/-- group_exists from `warning_handler.py` / `main.py`:
`SELECT 1 FROM groups WHERE group_id = ?` is non-empty. -/
def group_exists (db : Db) (group_id : Int) : Bool :=
  decide (group_id ∈ db.groups)

/-- is_bypass_user from `warning_handler.py` / `main.py`:
`SELECT 1 FROM bypass_users WHERE user_id = ?` is non-empty. -/
def is_bypass_user (db : Db) (user_id : Int) : Bool :=
  decide (user_id ∈ db.bypass_users)

/-- remove_bypass_user from `main.py`: `DELETE FROM bypass_users WHERE
user_id = ?`, returning whether any row was deleted. -/
def remove_bypass_user (db : Db) (user_id : Int) : Db × Bool :=
  ({ db with bypass_users := db.bypass_users.filter (fun v => decide (v ≠ user_id)) },
   decide (user_id ∈ db.bypass_users))

/-- add_user_to_removed_users from `main.py`: plain `INSERT` on the
`(group_id, user_id)` primary key; the `sqlite3.IntegrityError` raised by a
duplicate is caught and only logged, so a repeat insert leaves the table
unchanged. -/
def add_user_to_removed_users (db : Db) (group_id user_id : Int) : Db :=
  if (group_id, user_id) ∈ db.removed_users then db
  else { db with removed_users := db.removed_users ++ [(group_id, user_id)] }

/-- remove_user_from_removed_users from `main.py`: `DELETE FROM
removed_users WHERE group_id = ? AND user_id = ?`, returning
`c.rowcount > 0`. -/
def remove_user_from_removed_users (db : Db) (group_id user_id : Int) : Db × Bool :=
  ({ db with removed_users :=
      db.removed_users.filter (fun r => decide (r ≠ (group_id, user_id))) },
   decide ((group_id, user_id) ∈ db.removed_users))

/-- revoke_user_permissions from `main.py`: `UPDATE permissions SET role =
'removed' WHERE user_id = ?` — only an existing row is rewritten. -/
def revoke_user_permissions (db : Db) (user_id : Int) : Db :=
  { db with permissions := fun v =>
      if v = user_id then (db.permissions v).map (fun _ => "removed")
      else db.permissions v }

/- ------------------------------------------------------------------
   Message envelopes and the warning handler.
   ------------------------------------------------------------------ -/

/-- The parts of a Telegram message envelope the handlers look at.  A
message may carry a `text`, a `caption`, both, or neither. -/
structure Msg where
  text : Option PyStr
  caption : Option PyStr
  from_user : Int
  chat_id : Int

/-- Python truthiness of an optional string: `not message.text` is true for
a missing field and for the empty string. -/
def textTruthy : Option PyStr → Bool
  | none => false
  | some s => !s.isEmpty

/-- handle_warnings from `warning_handler.py`, as a transformer of the
database state.  The second component records the platform ban calls the
handler issues (the function body contains none on any path: it only sends
warning notices and TARA reports, which leave the modelled state alone).
Control flow follows the source: non-text messages, unregistered groups and
bypassed users return with the database untouched; otherwise the user cache
is refreshed and, when the text contains Arabic, the warning count is read,
incremented, upserted, and one history row is logged. -/
def handle_warnings (db : Db) (msg : Msg) : Db × List (Int × Int) :=
  if textTruthy msg.text = false then (db, [])
  else if group_exists db msg.chat_id = false then (db, [])
  else if is_bypass_user db msg.from_user = true then (db, [])
  else if wh_is_arabic (msg.text.getD []) = true then
    (log_warning
      (update_warnings (update_user_info db msg.from_user) msg.from_user
        (get_user_warnings (update_user_info db msg.from_user) msg.from_user + 1))
      msg.from_user
      (get_user_warnings (update_user_info db msg.from_user) msg.from_user + 1)
      msg.chat_id, [])
  else (update_user_info db msg.from_user, [])

/- ------------------------------------------------------------------
   Deletion flags (`delete_all_messages_after_removal` in `main.py`).
   ------------------------------------------------------------------ -/

/-- The module-level dictionary `delete_all_messages_after_removal`,
mapping a group id to the stored `expiration_time` when a flag is present. -/
abbrev Flags := Int → Option Int

/-- MESSAGE_DELETE_TIMEFRAME from `main.py`. -/
def MESSAGE_DELETE_TIMEFRAME : Int := 15

/-- The empty flag dictionary. -/
def emptyFlags : Flags := fun _ => none

/-- Arming in `rmove_user_cmd`:
`delete_all_messages_after_removal[group_id] = datetime.utcnow() + timedelta(seconds=MESSAGE_DELETE_TIMEFRAME)`. -/
def armFlag (flags : Flags) (group_id expires_at : Int) : Flags :=
  fun g => if g = group_id then some expires_at else flags g

/-- delete_any_messages from `main.py`: the message is deleted iff
`group_id in delete_all_messages_after_removal` — a pure presence test; the
stored expiration time and the arrival time are never consulted. -/
def delete_any_messages (flags : Flags) (group_id : Int) : Bool :=
  (flags group_id).isSome

/-- remove_deletion_flag_after_timeout from `main.py`:
`delete_all_messages_after_removal.pop(group_id, None)` — the flag is
removed unconditionally, with no comparison against the expiry the task
was scheduled for. -/
def remove_deletion_flag_after_timeout (flags : Flags) (group_id : Int) : Flags :=
  fun g => if g = group_id then none else flags g

/-- rmove_user_cmd from `main.py` (after authorisation and argument
parsing): remove the target from the bypass list, insert it into
`removed_users`, revoke its permissions, then attempt the platform ban.
`banOk` is the outcome of `context.bot.ban_chat_member`; on failure the
handler sends an error message and returns — the deletion flag is armed
(and its reaper scheduled) only after a successful ban. -/
def rmove_user_cmd (db : Db) (flags : Flags) (group_id target_user_id now : Int)
    (banOk : Bool) : Db × Flags :=
  let db1 := (remove_bypass_user db target_user_id).1
  let db2 := add_user_to_removed_users db1 group_id target_user_id
  let db3 := revoke_user_permissions db2 target_user_id
  if banOk then
    (db3, armFlag flags group_id (now + MESSAGE_DELETE_TIMEFRAME))
  else
    (db3, flags)

/- ------------------------------------------------------------------
   The /check reconciliation command.
   ------------------------------------------------------------------ -/

/-- Member statuses the platform's `get_chat_member` can report. -/
inductive ChatMemberStatus where
  | member
  | administrator
  | creator
  | left
  | kicked
  | restricted
  deriving DecidableEq, Repr

/-- The membership test of `check_cmd`:
`status in [ChatMemberStatus.MEMBER, ChatMemberStatus.ADMINISTRATOR, ChatMemberStatus.CREATOR]`.
A failed `get_chat_member` lookup (modelled as `none`) falls into the
`except` branch, which files the user as not in the group. -/
def statusStillIn : Option ChatMemberStatus → Bool
  | some .member => true
  | some .administrator => true
  | some .creator => true
  | some _ => false
  | none => false

/-- The classification loop of `check_cmd` over the fetched
`removed_users` rows, appending each user id to `users_still_in_group` or
`users_not_in_group`. -/
def checkLoop (oracle : Int → Option ChatMemberStatus) :
    List Int → List Int × List Int → List Int × List Int
  | [], acc => acc
  | uid :: rest, (sIn, nIn) =>
      if statusStillIn (oracle uid) = true then
        checkLoop oracle rest (sIn ++ [uid], nIn)
      else
        checkLoop oracle rest (sIn, nIn ++ [uid])

/-- Outcome of `check_cmd`: the two partitions, the pair of lists included
in the report message when it was delivered, and the user ids a
`ban_chat_member` call was issued for. -/
structure CheckResult where
  stillIn : List Int
  notIn : List Int
  report : Option (List Int × List Int)
  bans : List Int
  deriving DecidableEq, Repr

/-- check_cmd from `main.py` for a registered group with a non-empty
removed-users list: classify every fetched row with the membership oracle,
send the report (both partitions are rendered into the message), and —
only when sending the report succeeded, since its `except` branch returns —
issue one ban call per user still in the group (each call's own failure is
caught inside the loop and does not stop the remaining calls). -/
def check_cmd (removed : List Int) (oracle : Int → Option ChatMemberStatus)
    (reportOk : Bool) : CheckResult :=
  let p := checkLoop oracle removed ([], [])
  if reportOk then
    { stillIn := p.1, notIn := p.2, report := some (p.1, p.2), bans := p.1 }
  else
    { stillIn := p.1, notIn := p.2, report := none, bans := [] }

/- ------------------------------------------------------------------
   Concrete states and messages used as evaluation inputs.
   ------------------------------------------------------------------ -/

/-- A database holding one registered group (id 10) and nothing else. -/
def exampleDb : Db where
  warnings := fun _ => none
  warnings_history := []
  bypass_users := []
  groups := [10]
  users := []
  removed_users := []
  permissions := fun _ => none

/-- Same database, but user 5 already has 2 warnings. -/
def exampleDbTwo : Db :=
  { exampleDb with warnings := fun v => if v = 5 then some 2 else none }

/-- Same database, but user 5 is on the bypass list. -/
def exampleDbBypass : Db :=
  { exampleDb with bypass_users := [5] }

/-- Same database, but (group 10, user 5) is registered as removed. -/
def exampleDbRemoved : Db :=
  { exampleDb with removed_users := [(10, 5)] }

/-- A one-codepoint Arabic string (the letter sheen, U+0634). -/
def sheen : PyStr := ['ش']

/-- A plain-text message from user 5 in group 10 whose text is Arabic. -/
def msgArabic : Msg :=
  { text := some sheen, caption := none, from_user := 5, chat_id := 10 }

/-- An envelope from user 5 in group 10 carrying only an Arabic caption and
no text field. -/
def msgCaptionOnly : Msg :=
  { text := none, caption := some sheen, from_user := 5, chat_id := 10 }

/-- A membership oracle: user 1 is a member, user 2 was kicked, and every
other lookup fails. -/
def exampleOracle : Int → Option ChatMemberStatus := fun u =>
  if u = 1 then some ChatMemberStatus.member
  else if u = 2 then some ChatMemberStatus.kicked
  else none

/- ------------------------------------------------------------------
   Helper lemmas about the embedded operations.
   ------------------------------------------------------------------ -/

lemma warnings_update_user_info (db : Db) (u : Int) :
    (update_user_info db u).warnings = db.warnings := rfl

lemma get_user_warnings_update_user_info (db : Db) (u v : Int) :
    get_user_warnings (update_user_info db u) v = get_user_warnings db v := rfl

lemma get_user_warnings_log_warning (db : Db) (u : Int) (n : Nat) (g v : Int) :
    get_user_warnings (log_warning db u n g) v = get_user_warnings db v := rfl

lemma get_user_warnings_update_self (db : Db) (u : Int) (n : Nat) :
    get_user_warnings (update_warnings db u n) u = n := by
  simp [get_user_warnings, update_warnings]

lemma get_user_warnings_update_of_ne (db : Db) (u v : Int) (n : Nat) (h : v ≠ u) :
    get_user_warnings (update_warnings db u n) v = get_user_warnings db v := by
  simp [get_user_warnings, update_warnings, h]

/-- Under the conditions for recording a violation (text present and
non-empty, group registered, sender not bypassed, Arabic detected),
handle_warnings produces exactly one upsert of count+1 and one appended
history row. -/
lemma handle_warnings_record (db : Db) (msg : Msg) (t : PyStr)
    (htext : msg.text = some t) (htne : t.isEmpty = false)
    (hgrp : group_exists db msg.chat_id = true)
    (hbyp : is_bypass_user db msg.from_user = false)
    (harab : wh_is_arabic t = true) :
    handle_warnings db msg =
      (log_warning
        (update_warnings (update_user_info db msg.from_user) msg.from_user
          (get_user_warnings db msg.from_user + 1))
        msg.from_user (get_user_warnings db msg.from_user + 1) msg.chat_id, []) := by
  simp only [handle_warnings, htext, textTruthy, htne, Bool.not_false, Option.getD_some,
    hgrp, hbyp, harab, get_user_warnings_update_user_info]
  rfl

/-- One handler step never decreases any user's warning count. -/
lemma get_user_warnings_handle_le (db : Db) (m : Msg) (u : Int) :
    get_user_warnings db u ≤ get_user_warnings (handle_warnings db m).1 u := by
  unfold handle_warnings
  split
  · exact le_refl _
  split
  · exact le_refl _
  split
  · exact le_refl _
  split
  · by_cases hu : u = m.from_user
    · subst hu
      rw [get_user_warnings_log_warning, get_user_warnings_update_self,
        get_user_warnings_update_user_info]
      exact Nat.le_succ _
    · rw [get_user_warnings_log_warning, get_user_warnings_update_of_ne _ _ _ _ hu,
        get_user_warnings_update_user_info]
  · rw [get_user_warnings_update_user_info]

/-- Over any message sequence, warning counts are non-decreasing. -/
lemma get_user_warnings_foldl_le (msgs : List Msg) (db : Db) (u : Int) :
    get_user_warnings db u ≤
      get_user_warnings (msgs.foldl (fun a m => (handle_warnings a m).1) db) u := by
  induction msgs generalizing db with
  | nil => exact le_refl _
  | cons m ms ih =>
      exact le_trans (get_user_warnings_handle_le db m u) (ih _)

/-- Inserting a pair into removed_users makes it a member, whether or not
it was already present. -/
lemma mem_add_user_to_removed_users (db : Db) (g u : Int) :
    (g, u) ∈ (add_user_to_removed_users db g u).removed_users := by
  unfold add_user_to_removed_users
  split
  · assumption
  · simp

/-- The classification loop of check_cmd is the pair of filters of the row
list, appended to the running accumulators. -/
lemma checkLoop_eq_filter (oracle : Int → Option ChatMemberStatus)
    (l : List Int) (a b : List Int) :
    checkLoop oracle l (a, b) =
      (a ++ l.filter (fun uid => statusStillIn (oracle uid)),
       b ++ l.filter (fun uid => !statusStillIn (oracle uid))) := by
  induction l generalizing a b with
  | nil => simp [checkLoop]
  | cons x xs ih =>
      by_cases h : statusStillIn (oracle x) = true
      · rw [checkLoop, if_pos h, ih]
        simp [List.filter_cons, h]
      · have hb : statusStillIn (oracle x) = false := by
          revert h; cases statusStillIn (oracle x) <;> simp
        rw [checkLoop, if_neg h, ih]
        simp [List.filter_cons, hb]

/- ------------------------------------------------------------------
   Claim theorems.
   ------------------------------------------------------------------ -/

/-- C10: the four is_arabic implementations (the codepoint-range test of
`utils.py` and the regex versions of `warning_handler.py`, `main.py` and
`delete.py`) agree on every string, and each returns true exactly when the
string contains a codepoint in U+0600..U+06FF. -/
theorem C10_is_arabic_equivalence (s : PyStr) :
    utils_is_arabic s = wh_is_arabic s ∧
    wh_is_arabic s = main_is_arabic s ∧
    main_is_arabic s = delete_is_arabic s ∧
    (utils_is_arabic s = true ↔ ∃ c ∈ s, 0x0600 ≤ c.toNat ∧ c.toNat ≤ 0x06FF) := by
  have h : ∀ c : Char,
      decide (0x0600 ≤ c.toNat ∧ c.toNat < 0x06FF + 1)
        = decide (0x0600 ≤ c.toNat ∧ c.toNat ≤ 0x06FF) :=
    fun c => decide_eq_decide.mpr (by omega)
  refine ⟨?_, rfl, rfl, ?_⟩
  · simp only [utils_is_arabic, wh_is_arabic, h]
  · simp only [utils_is_arabic, h, List.any_eq_true, decide_eq_true_eq]

/-- C9: Registry.remove (remove_user_from_removed_users) deletes a present
(g,u) row and reports true; on an absent row it changes nothing and reports
false, a second remove of the same pair reports false, and the surviving
registry is a sublist of the original (no duplicate or corrupted rows). -/
theorem C9_registry_remove_semantics (db : Db) (g u : Int) :
    ((g, u) ∈ db.removed_users →
      (remove_user_from_removed_users db g u).2 = true ∧
      (g, u) ∉ (remove_user_from_removed_users db g u).1.removed_users) ∧
    ((g, u) ∉ db.removed_users →
      (remove_user_from_removed_users db g u).2 = false ∧
      (remove_user_from_removed_users db g u).1.removed_users = db.removed_users) ∧
    (remove_user_from_removed_users
      (remove_user_from_removed_users db g u).1 g u).2 = false ∧
    List.Sublist (remove_user_from_removed_users db g u).1.removed_users
      db.removed_users := by
  refine ⟨fun hmem => ⟨by simp [remove_user_from_removed_users, hmem], ?_⟩,
    fun hnot => ⟨by simp [remove_user_from_removed_users, hnot], ?_⟩, ?_, ?_⟩
  · simp [remove_user_from_removed_users]
  · simp only [remove_user_from_removed_users]
    rw [List.filter_eq_self]
    intro a ha
    simp only [decide_eq_true_eq]
    intro hEq
    exact hnot (hEq ▸ ha)
  · simp [remove_user_from_removed_users]
  · exact List.filter_sublist _

/-- C9 witness: removing the present row (10,5) reports true and the row is
gone afterwards. -/
theorem C9_registry_remove_witness :
    (remove_user_from_removed_users exampleDbRemoved 10 5).2 = true ∧
    (10, 5) ∉ (remove_user_from_removed_users exampleDbRemoved 10 5).1.removed_users :=
  (C9_registry_remove_semantics exampleDbRemoved 10 5).1 (by decide)

/-- C5 counterexample: arm group 1 at t = 0 with the fixed 15-second
duration, so the stored expiry is 15.  While the reap task has not yet run,
the quarantine lane still deletes a message — in particular one arriving at
t' = 20 ≥ 0 + 15 — because delete_any_messages tests only the flag's
presence and never consults the expiry or the arrival time.  The claim says
such a message is never deleted. -/
theorem C5_quarantine_counterexample :
    delete_any_messages (armFlag emptyFlags 1 (0 + MESSAGE_DELETE_TIMEFRAME)) 1 = true ∧
    (0 + MESSAGE_DELETE_TIMEFRAME : Int) ≤ 20 := by
  exact ⟨rfl, by decide⟩

/-- C5 amended: after arm(g,d) the quarantine lane deletes every message in
g until the flag entry is removed: while the flag is present a message is
deleted regardless of its arrival time (so also at t' ≥ t+d when the reap
task has not yet run), once the reap task has removed the flag nothing is
deleted, and the deletion decision is insensitive to the stored expiry
value. -/
theorem C5_quarantine_amended (flags : Flags) (g e : Int) :
    delete_any_messages (armFlag flags g e) g = true ∧
    delete_any_messages (remove_deletion_flag_after_timeout flags g) g = false ∧
    (∀ e1 e2 g',
      delete_any_messages (armFlag flags g e1) g'
        = delete_any_messages (armFlag flags g e2) g') := by
  refine ⟨?_, ?_, fun e1 e2 g' => ?_⟩
  · simp [delete_any_messages, armFlag]
  · simp [delete_any_messages, remove_deletion_flag_after_timeout]
  · by_cases hg : g' = g <;> simp [delete_any_messages, armFlag, hg]

/-- C6 counterexample: group 1 is armed with expiry 15, then re-armed with
expiry 100.  When the reaper scheduled by the first arm fires, the flag
currently present (expiry 100) differs from the one it was scheduled for
(expiry 15), yet remove_deletion_flag_after_timeout clears it anyway: it
performs no expires_at comparison. -/
theorem C6_reaper_counterexample :
    (armFlag (armFlag emptyFlags 1 15) 1 100) 1 = some 100 ∧
    (100 : Int) ≠ 15 ∧
    remove_deletion_flag_after_timeout (armFlag (armFlag emptyFlags 1 15) 1 100) 1 1
      = none :=
  ⟨rfl, by decide, rfl⟩

/-- C6 amended: when the deferred reap task fires it removes the group's
Deletion Flag unconditionally — even a flag re-armed after the reaper's own
arm (so with a different expires_at) is cleared — while flags of other
groups are left untouched. -/
theorem C6_reaper_amended (flags : Flags) (g e1 e2 : Int) :
    remove_deletion_flag_after_timeout (armFlag (armFlag flags g e1) g e2) g g
      = none ∧
    (∀ g', g' ≠ g → remove_deletion_flag_after_timeout flags g g' = flags g') := by
  refine ⟨?_, fun g' hg => ?_⟩
  · simp [remove_deletion_flag_after_timeout]
  · simp [remove_deletion_flag_after_timeout, hg]

/-- C6 witness: the amended statement evaluated at group 1 re-armed from
expiry 15 to expiry 100, and at untouched group 2. -/
theorem C6_reaper_amended_witness :
    remove_deletion_flag_after_timeout (armFlag (armFlag emptyFlags 1 15) 1 100) 1 1
      = none ∧
    remove_deletion_flag_after_timeout emptyFlags 1 2 = emptyFlags 2 :=
  ⟨(C6_reaper_amended emptyFlags 1 15 100).1,
   (C6_reaper_amended emptyFlags 1 15 100).2 2 (by decide)⟩

/-- C1: the Ledger's warning count is non-decreasing across any sequence of
handler steps; when handle_warnings records a violation (text present,
group registered, sender not bypassed, Arabic detected) the stored count
becomes the previous count plus one and exactly one matching history row is
appended; and a user without a warnings row has count 0. -/
theorem C1_warning_ledger (db : Db) (msg : Msg) (t : PyStr)
    (htext : msg.text = some t) (htne : t.isEmpty = false)
    (hgrp : group_exists db msg.chat_id = true)
    (hbyp : is_bypass_user db msg.from_user = false)
    (harab : wh_is_arabic t = true) :
    (∀ (msgs : List Msg) (d : Db) (u : Int),
      get_user_warnings d u ≤
        get_user_warnings (msgs.foldl (fun a m => (handle_warnings a m).1) d) u) ∧
    get_user_warnings (handle_warnings db msg).1 msg.from_user
      = get_user_warnings db msg.from_user + 1 ∧
    (handle_warnings db msg).1.warnings_history
      = db.warnings_history ++
          [⟨msg.from_user, get_user_warnings db msg.from_user + 1, msg.chat_id⟩] ∧
    (∀ (d : Db) (u : Int), d.warnings u = none → get_user_warnings d u = 0) := by
  have hw := handle_warnings_record db msg t htext htne hgrp hbyp harab
  refine ⟨fun msgs d u => get_user_warnings_foldl_le msgs d u, ?_, ?_,
    fun d u h => by simp [get_user_warnings, h]⟩
  · rw [hw, get_user_warnings_log_warning, get_user_warnings_update_self]
  · rw [hw]
    rfl

/-- C1 witness: user 5 with 2 prior warnings sends an Arabic text in
registered group 10 and the stored count becomes the previous count
plus one. -/
theorem C1_warning_ledger_witness :
    get_user_warnings (handle_warnings exampleDbTwo msgArabic).1 5
      = get_user_warnings exampleDbTwo 5 + 1 :=
  (C1_warning_ledger exampleDbTwo msgArabic sheen rfl rfl (by decide) (by decide)
    (by decide)).2.1

/-- C2: a message from a user on the bypass list never mutates the Warning
Ledger: neither the warnings table nor the history changes, regardless of
the message content. -/
theorem C2_bypass_no_ledger_mutation (db : Db) (msg : Msg)
    (h : is_bypass_user db msg.from_user = true) :
    (handle_warnings db msg).1.warnings = db.warnings ∧
    (handle_warnings db msg).1.warnings_history = db.warnings_history := by
  unfold handle_warnings
  by_cases h1 : textTruthy msg.text = false
  · rw [if_pos h1]; exact ⟨rfl, rfl⟩
  rw [if_neg h1]
  by_cases h2 : group_exists db msg.chat_id = false
  · rw [if_pos h2]; exact ⟨rfl, rfl⟩
  rw [if_neg h2, if_pos h]
  exact ⟨rfl, rfl⟩

/-- C2 witness: bypassed user 5 sends an Arabic text in registered group
10 and the warnings table and history are untouched. -/
theorem C2_bypass_no_ledger_mutation_witness :
    (handle_warnings exampleDbBypass msgArabic).1.warnings
      = exampleDbBypass.warnings ∧
    (handle_warnings exampleDbBypass msgArabic).1.warnings_history
      = exampleDbBypass.warnings_history :=
  C2_bypass_no_ledger_mutation exampleDbBypass msgArabic (by decide)

/-- C3 counterexample: non-bypassed user 5 with 2 prior warnings sends an
Arabic text in registered group 10, so the cumulative count reaches 3 (the
spec's ban threshold), yet the removal registry stays empty and no ban call
is issued — handle_warnings has no ban path at all, and the deletion flags
live in main.py, which warning_handler cannot reach.  The claim requires a
registry insert, a ban call and an armed flag. -/
theorem C3_no_ban_counterexample :
    get_user_warnings (handle_warnings exampleDbTwo msgArabic).1 5 = 3 ∧
    (handle_warnings exampleDbTwo msgArabic).1.removed_users = [] ∧
    (handle_warnings exampleDbTwo msgArabic).2 = [] := by
  refine ⟨by decide, by decide, by decide⟩

/-- C3 amended: processing a violation never touches the removal registry
and never issues a ban call, whatever the resulting count; the registry
insert, the ban call and the deletion-flag arming are performed only by the
separate /rmove_user command (shown here with a succeeding ban). -/
theorem C3_no_automatic_ban_amended :
    (∀ (db : Db) (msg : Msg),
      (handle_warnings db msg).1.removed_users = db.removed_users ∧
      (handle_warnings db msg).2 = []) ∧
    (∀ (db : Db) (flags : Flags) (g u now : Int),
      (g, u) ∈ (rmove_user_cmd db flags g u now true).1.removed_users ∧
      (rmove_user_cmd db flags g u now true).2 g
        = some (now + MESSAGE_DELETE_TIMEFRAME)) := by
  constructor
  · intro db msg
    unfold handle_warnings
    by_cases h1 : textTruthy msg.text = false
    · rw [if_pos h1]; exact ⟨rfl, rfl⟩
    rw [if_neg h1]
    by_cases h2 : group_exists db msg.chat_id = false
    · rw [if_pos h2]; exact ⟨rfl, rfl⟩
    rw [if_neg h2]
    by_cases h3 : is_bypass_user db msg.from_user = true
    · rw [if_pos h3]; exact ⟨rfl, rfl⟩
    rw [if_neg h3]
    by_cases h4 : wh_is_arabic (msg.text.getD []) = true
    · rw [if_pos h4]; exact ⟨rfl, rfl⟩
    · rw [if_neg h4]; exact ⟨rfl, rfl⟩
  · intro db flags g u now
    refine ⟨mem_add_user_to_removed_users _ g u, ?_⟩
    simp [rmove_user_cmd, armFlag]

/-- C4 counterexample: an envelope from non-bypassed user 5 in registered
group 10 carrying only an Arabic caption (no text field) is returned
untouched by handle_warnings — the handler bails out on `not message.text`
before any scanning — although the caption contains a forbidden-script
codepoint.  The claim requires this message to be classified as
violating. -/
theorem C4_caption_counterexample :
    handle_warnings exampleDb msgCaptionOnly = (exampleDb, []) ∧
    wh_is_arabic (msgCaptionOnly.caption.getD []) = true :=
  ⟨rfl, by decide⟩

/-- C4 amended: the handler checks only the message's text field; an
envelope without a text field is dropped unprocessed — its caption is never
scanned, so a caption-only message is never classified as violating. -/
theorem C4_text_only_amended (db : Db) (msg : Msg) (h : msg.text = none) :
    handle_warnings db msg = (db, []) := by
  simp [handle_warnings, h, textTruthy]

/-- C4 witness: the amended statement evaluated on the caption-only Arabic
envelope. -/
theorem C4_text_only_amended_witness :
    handle_warnings exampleDb msgCaptionOnly = (exampleDb, []) :=
  C4_text_only_amended exampleDb msgCaptionOnly rfl

/-- C7: for every registry row, check_cmd files the row under stillIn
exactly when the oracle reports member, administrator or creator, and under
notIn for every other status and for a failed lookup; the delivered report
carries both partitions, and one ban call is issued per stillIn entry. -/
theorem C7_reconcile_partition (removed : List Int)
    (oracle : Int → Option ChatMemberStatus) (reportOk : Bool)
    (h : reportOk = true) :
    (check_cmd removed oracle reportOk).stillIn
      = removed.filter (fun uid => statusStillIn (oracle uid)) ∧
    (check_cmd removed oracle reportOk).notIn
      = removed.filter (fun uid => !statusStillIn (oracle uid)) ∧
    (check_cmd removed oracle reportOk).report
      = some ((check_cmd removed oracle reportOk).stillIn,
              (check_cmd removed oracle reportOk).notIn) ∧
    (check_cmd removed oracle reportOk).bans
      = (check_cmd removed oracle reportOk).stillIn ∧
    (∀ uid : Int, statusStillIn (oracle uid) = true ↔
      oracle uid = some ChatMemberStatus.member ∨
      oracle uid = some ChatMemberStatus.administrator ∨
      oracle uid = some ChatMemberStatus.creator) := by
  subst h
  have hp := checkLoop_eq_filter oracle removed [] []
  refine ⟨?_, ?_, ?_, ?_, fun uid => ?_⟩
  · simp [check_cmd, hp]
  · simp [check_cmd, hp]
  · simp [check_cmd]
  · simp [check_cmd]
  · cases ho : oracle uid with
    | none => simp [statusStillIn]
    | some s => cases s <;> simp [statusStillIn]

/-- C7 witness: rows [1,2,3] with user 1 a member, user 2 kicked and the
lookup for user 3 failing partition into stillIn = [1], notIn = [2,3], and
a ban is issued exactly for user 1. -/
theorem C7_reconcile_partition_witness :
    (check_cmd [1, 2, 3] exampleOracle true).stillIn = [1] ∧
    (check_cmd [1, 2, 3] exampleOracle true).notIn = [2, 3] ∧
    (check_cmd [1, 2, 3] exampleOracle true).bans = [1] := by
  have h := C7_reconcile_partition [1, 2, 3] exampleOracle true rfl
  exact ⟨h.1.trans (by decide), h.2.1.trans (by decide),
    (h.2.2.2.1.trans h.1).trans (by decide)⟩

/-- C8 counterexample: on a failed ban call, rmove_user_cmd has already
inserted (10,5) into the removal registry (and does not roll it back), but
it returns before arming the Deletion Flag, so the quarantine lane does not
delete in group 10.  The claim requires the flag to be armed even when the
ban call fails. -/
theorem C8_ban_failure_counterexample :
    (10, 5) ∈ (rmove_user_cmd exampleDb emptyFlags 10 5 0 false).1.removed_users ∧
    (rmove_user_cmd exampleDb emptyFlags 10 5 0 false).2 10 = none ∧
    delete_any_messages (rmove_user_cmd exampleDb emptyFlags 10 5 0 false).2 10
      = false := by
  refine ⟨by decide, rfl, rfl⟩

/-- C8 amended: when the platform ban call fails, the RemovedUser registry
entry is still present — the insert precedes the ban attempt and is not
rolled back — but the handler returns early, so the group's Deletion Flag
is not armed: the flag state is exactly what it was before the command. -/
theorem C8_ban_failure_amended (db : Db) (flags : Flags) (g u now : Int) :
    (g, u) ∈ (rmove_user_cmd db flags g u now false).1.removed_users ∧
    (rmove_user_cmd db flags g u now false).2 = flags := by
  exact ⟨mem_add_user_to_removed_users _ g u, rfl⟩

end Mdawd7
